import Mathlib

/-!
Verification of the native input transport (`include/ui/InputTransport.h`):
the `InputMessage` wire format with its size and validity rules, the
`InputChannel` non-blocking send/receive contract, and the
`InputPublisher`/`InputConsumer` roles with the finished-signal handshake.

The repository ships only the header; the method bodies that are inline in
the header (the `size()` functions of the three body variants, the type
tags) are embedded from that source directly.  All other operation bodies
(`isValid`, `sendMessage`/`receiveMessage`, the publisher and consumer
methods) are modelled from the spec, as noted on each definition.
-/

namespace Android

/-- The three wire tags of `InputMessage` (source, `enum` at the top of
`struct InputMessage`): `TYPE_KEY = 1`. -/
def TYPE_KEY : Nat := 1

/-- Source: `TYPE_MOTION = 2`. -/
def TYPE_MOTION : Nat := 2

/-- Source: `TYPE_FINISHED = 3`. -/
def TYPE_FINISHED : Nat := 3

/-- Modelled from the spec: `MAX_POINTERS` lives in the external header
`ui/Input.h` (not in the repository); the spec says it is "a fixed small
constant (the maximum simultaneous touch points supported)".  We use the
platform's value 10; no theorem below depends on the particular value. -/
def MAX_POINTERS : Nat := 10

/-- Modelled from the spec: byte size of `InputMessage::Header`
(`kind: u32, padding: u32`, 8-byte aligned), i.e. 8. -/
def sizeofHeader : Nat := 8

/-- Modelled from the spec: `sizeof(Body::Key)` — a fixed constant
determined by the compiler's layout of the ten key fields; representative
value for one ABI.  Theorems depend only on it being a fixed constant. -/
def sizeofKeyBody : Nat := 48

/-- Modelled from the spec: `sizeof(Body::Finished)` — fixed size of the
single-boolean finished body. -/
def sizeofFinishedBody : Nat := 1

/-- Modelled from the spec: `sizeof(Body::Motion::Pointer)` — the size of
one pointer record (`PointerProperties` + `PointerCoords`, both external
types from `ui/Input.h`); representative value for one ABI.  Theorems
depend only on its positivity. -/
def sizeofPointer : Nat := 80

/-- Modelled from the spec: the fixed part of `Body::Motion` before the
pointer array, i.e. `sizeof(Motion) - sizeof(Pointer) * MAX_POINTERS`;
representative value for one ABI. -/
def sizeofMotionFixed : Nat := 72

/-- `sizeof(Body::Motion)`: the fixed part plus the full
fixed-capacity pointer array, as laid out in the source struct. -/
def sizeofMotionBody : Nat := sizeofMotionFixed + sizeofPointer * MAX_POINTERS

/-- Send/receive outcome codes (`status_t` values named in the header's
doc comments and the spec's status taxonomy). -/
inductive Status where
  | OK
  | WOULD_BLOCK
  | DEAD_OBJECT
  | BAD_VALUE
  | NO_MEMORY
  | UNKNOWN_ERROR
  deriving DecidableEq, Repr

/-- `InputMessage::Header`: a `uint32_t type` tag and alignment padding.
Field values are the mathematical integers carried by the machine words;
the transport only stores and compares them. -/
structure Header where
  type : Nat
  padding : Nat
  deriving DecidableEq, Repr

/-- `InputMessage::Body::Key`: the ten key-event fields, in source order.
`nsecs_t` and `int32_t` fields are modelled as `Int`. -/
structure KeyBody where
  eventTime : Int
  deviceId : Int
  source : Int
  action : Int
  flags : Int
  keyCode : Int
  scanCode : Int
  metaState : Int
  repeatCount : Int
  downTime : Int
  deriving DecidableEq, Repr

/-- One `Body::Motion::Pointer` record: a `PointerProperties` and a
`PointerCoords`.  Both are external types (out of scope per the spec);
the transport copies them as opaque values, modelled here as `Int` blobs. -/
structure Pointer where
  properties : Int
  coords : Int
  deriving DecidableEq, Repr

/-- `InputMessage::Body::Motion`: the fixed fields in source order, the
pointer count, and the pointer records.  The source's fixed-capacity
`pointers[MAX_POINTERS]` array is modelled as a list whose meaningful
part is its first `pointerCount` entries; float fields are opaque values
(the transport only copies them), modelled as `Int`. -/
structure MotionBody where
  eventTime : Int
  deviceId : Int
  source : Int
  action : Int
  flags : Int
  metaState : Int
  buttonState : Int
  edgeFlags : Int
  downTime : Int
  xOffset : Int
  yOffset : Int
  xPrecision : Int
  yPrecision : Int
  pointerCount : Nat
  pointers : List Pointer
  deriving DecidableEq, Repr

/-- `InputMessage::Body::Finished`: a single boolean, "was the event
handled". -/
structure FinishedBody where
  handled : Bool
  deriving DecidableEq, Repr

/-- The `union Body` of `InputMessage`, as the tagged alternative it
represents (the spec's "closed set of variants discriminated by an
explicit tag field"). -/
inductive Body where
  | key (k : KeyBody)
  | motion (m : MotionBody)
  | finished (f : FinishedBody)
  deriving DecidableEq, Repr

/-- `struct InputMessage`: a header and a body.  The header's `type` tag
is stored separately from the body variant, as in the source, so that
messages with an unknown tag (e.g. a zero-initialized header) are
representable. -/
structure InputMessage where
  header : Header
  body : Body
  deriving DecidableEq, Repr

/-- `Body::Key::size()` (source, inline): `sizeof(Key)`, a constant. -/
def KeyBody.size (_ : KeyBody) : Nat := sizeofKeyBody

/-- `Body::Motion::size()` (source, inline):
`sizeof(Motion) - sizeof(Pointer) * MAX_POINTERS + sizeof(Pointer) * pointerCount`. -/
def MotionBody.size (m : MotionBody) : Nat :=
  sizeofMotionBody - sizeofPointer * MAX_POINTERS + sizeofPointer * m.pointerCount

/-- `Body::Finished::size()` (source, inline): `sizeof(Finished)`. -/
def FinishedBody.size (_ : FinishedBody) : Nat := sizeofFinishedBody

/-- `InputMessage::size()`.  Modelled from the spec: "the Message's
self-reported size (header size + kind-specific body size)"; the method
body is not in the repository.  The kind is selected by the header tag as
in the source's union; a motion-tagged message whose union bytes are not
a motion body is not representable in this embedding, so that arm falls
back to the body's full capacity. -/
def InputMessage.size (msg : InputMessage) : Nat :=
  sizeofHeader +
    (if msg.header.type = TYPE_KEY then sizeofKeyBody
     else if msg.header.type = TYPE_MOTION then
       match msg.body with
       | Body.motion m => m.size
       | _ => sizeofMotionBody
     else if msg.header.type = TYPE_FINISHED then sizeofFinishedBody
     else 0)

/-- `InputMessage::isValid(actualSize)`.  Modelled from the spec: true
iff (a) the kind is one of the three known tags, and (b) for Motion the
`pointerCount` is within `[1, MAX_POINTERS]` and the size computed from
that `pointerCount` equals `actualSize`; for Key/Finished, `actualSize`
must equal the fixed size.  The method body is not in the repository. -/
def InputMessage.isValid (msg : InputMessage) (actualSize : Nat) : Bool :=
  if msg.header.type = TYPE_KEY then
    decide (actualSize = sizeofHeader + sizeofKeyBody)
  else if msg.header.type = TYPE_MOTION then
    match msg.body with
    | Body.motion m =>
        decide (1 ≤ m.pointerCount) && decide (m.pointerCount ≤ MAX_POINTERS) &&
          decide (actualSize = sizeofHeader + m.size)
    | _ => false
  else if msg.header.type = TYPE_FINISHED then
    decide (actualSize = sizeofHeader + sizeofFinishedBody)
  else false

/-- One direction of an `InputChannel`: the kernel socket buffer between
the two endpoints, modelled from the spec as a bounded FIFO of whole
frames ("a bounded kernel buffer enforces that a producer cannot
unboundedly outrun a slow consumer"), plus the peer-closed condition. -/
structure ChannelState where
  queue : List InputMessage
  capacity : Nat
  peerClosed : Bool
  deriving DecidableEq, Repr

/-- A freshly opened channel direction with the given buffer capacity:
empty buffer, peer open (the state `openInputChannelPair` establishes). -/
def emptyChannel (cap : Nat) : ChannelState :=
  { queue := [], capacity := cap, peerClosed := false }

/-- `InputChannel::sendMessage`.  Modelled from the spec and the header's
doc comment: on success the whole frame is enqueued; if the channel is
full the message "is guaranteed not to have been sent at all" and
`WOULD_BLOCK` is returned; if the peer has been closed, `DEAD_OBJECT`. -/
def sendMessage (ch : ChannelState) (msg : InputMessage) : Status × ChannelState :=
  if ch.peerClosed then (Status.DEAD_OBJECT, ch)
  else if ch.queue.length < ch.capacity then
    (Status.OK, { ch with queue := ch.queue ++ [msg] })
  else (Status.WOULD_BLOCK, ch)

/-- `InputChannel::receiveMessage`.  Modelled from the spec: dequeues one
complete frame in FIFO order; `WOULD_BLOCK` when no frame is available;
`DEAD_OBJECT` when the peer has closed and the buffer is drained. -/
def receiveMessage (ch : ChannelState) : Status × ChannelState × Option InputMessage :=
  match ch.queue with
  | [] =>
      if ch.peerClosed then (Status.DEAD_OBJECT, ch, none)
      else (Status.WOULD_BLOCK, ch, none)
  | m :: rest => (Status.OK, { ch with queue := rest }, some m)

/-- The Key frame `InputPublisher::publishKeyEvent` constructs from its
field arguments (argument order as in the source declaration). -/
def keyMessage (deviceId source action flags keyCode scanCode metaState
    repeatCount downTime eventTime : Int) : InputMessage :=
  { header := { type := TYPE_KEY, padding := 0 },
    body := Body.key
      { eventTime := eventTime, deviceId := deviceId, source := source,
        action := action, flags := flags, keyCode := keyCode,
        scanCode := scanCode, metaState := metaState,
        repeatCount := repeatCount, downTime := downTime } }

/-- `InputPublisher::publishKeyEvent`.  Modelled from the spec:
"constructs a Key Message from these fields and sends it via the owned
Channel.  Propagates the Channel's send outcomes unchanged." -/
def publishKeyEvent (ch : ChannelState) (deviceId source action flags keyCode
    scanCode metaState repeatCount downTime eventTime : Int) :
    Status × ChannelState :=
  sendMessage ch (keyMessage deviceId source action flags keyCode scanCode
    metaState repeatCount downTime eventTime)

/-- The Motion frame `InputPublisher::publishMotionEvent` constructs:
exactly `pointerCount` pointer records copied from the supplied parallel
arrays (argument order as in the source declaration). -/
def motionMessage (deviceId source action flags edgeFlags metaState
    buttonState xOffset yOffset xPrecision yPrecision downTime eventTime : Int)
    (pointerCount : Nat) (pointerProperties pointerCoords : List Int) :
    InputMessage :=
  { header := { type := TYPE_MOTION, padding := 0 },
    body := Body.motion
      { eventTime := eventTime, deviceId := deviceId, source := source,
        action := action, flags := flags, metaState := metaState,
        buttonState := buttonState, edgeFlags := edgeFlags,
        downTime := downTime, xOffset := xOffset, yOffset := yOffset,
        xPrecision := xPrecision, yPrecision := yPrecision,
        pointerCount := pointerCount,
        pointers := ((pointerProperties.zip pointerCoords).map
          (fun pr => { properties := pr.1, coords := pr.2 })).take pointerCount } }

/-- `InputPublisher::publishMotionEvent`.  Modelled from the spec and the
header's doc comment: "validates `1 <= pointerCount <= MAX_POINTERS`
before encoding — an out-of-range count is rejected as an
invalid-argument error (`BAD_VALUE`) without attempting to send";
otherwise constructs the Motion frame and sends it. -/
def publishMotionEvent (ch : ChannelState) (deviceId source action flags
    edgeFlags metaState buttonState xOffset yOffset xPrecision yPrecision
    downTime eventTime : Int) (pointerCount : Nat)
    (pointerProperties pointerCoords : List Int) : Status × ChannelState :=
  if pointerCount < 1 ∨ MAX_POINTERS < pointerCount then (Status.BAD_VALUE, ch)
  else sendMessage ch (motionMessage deviceId source action flags edgeFlags
    metaState buttonState xOffset yOffset xPrecision yPrecision downTime
    eventTime pointerCount pointerProperties pointerCoords)

/-- The Finished frame `InputConsumer::sendFinishedSignal` constructs. -/
def finishedMessage (handled : Bool) : InputMessage :=
  { header := { type := TYPE_FINISHED, padding := 0 },
    body := Body.finished { handled := handled } }

/-- `InputConsumer::sendFinishedSignal`.  Modelled from the spec:
"constructs a Finished Message with the given flag and sends it via the
Channel.  Propagates send outcomes." -/
def sendFinishedSignal (ch : ChannelState) (handled : Bool) :
    Status × ChannelState :=
  sendMessage ch (finishedMessage handled)

/-- `InputPublisher::receiveFinishedSignal`.  Modelled from the spec:
receives one Message, requires it to decode as a Finished record (any
other kind is a channel fault), and returns its `handled` flag;
would-block / peer-closed from the underlying receive are propagated. -/
def receiveFinishedSignal (ch : ChannelState) :
    Status × ChannelState × Option Bool :=
  match receiveMessage ch with
  | (Status.OK, ch2, some msg) =>
      if msg.header.type = TYPE_FINISHED then
        match msg.body with
        | Body.finished f => (Status.OK, ch2, some f.handled)
        | _ => (Status.UNKNOWN_ERROR, ch2, none)
      else (Status.UNKNOWN_ERROR, ch2, none)
  | (s, ch2, _) => (s, ch2, none)

/-- The event object the consumer-side factory materializes: a key event
or a motion event whose pointer list holds exactly `pointerCount`
records. -/
inductive InputEvent where
  | key (k : KeyBody)
  | motion (m : MotionBody)
  deriving DecidableEq, Repr

/-- Decoding step of `InputConsumer::consume`: a Key or Motion frame
whose tag and body agree becomes an event (for Motion, "exactly
`pointerCount` pointer records, no more"); a Finished frame here is a
wrong-direction protocol fault, yielding no event. -/
def decodeEvent (msg : InputMessage) : Option InputEvent :=
  match msg.body with
  | Body.key k =>
      if msg.header.type = TYPE_KEY then some (InputEvent.key k) else none
  | Body.motion m =>
      if msg.header.type = TYPE_MOTION then
        some (InputEvent.motion { m with pointers := m.pointers.take m.pointerCount })
      else none
  | Body.finished _ => none

/-- `InputConsumer::consume`.  Modelled from the spec: receives one
Message, rejects malformed frames (failing `isValid`) as a fault without
populating any event, asks the factory to allocate the event object
(`factoryHasMemory` abstracts the external factory's success;
`NO_MEMORY` on failure), and copies every wire field into it.
Would-block / peer-closed from the underlying receive are propagated. -/
def consume (ch : ChannelState) (factoryHasMemory : Bool) :
    Status × ChannelState × Option InputEvent :=
  match receiveMessage ch with
  | (Status.OK, ch2, some msg) =>
      if msg.isValid msg.size then
        match decodeEvent msg with
        | some ev =>
            if factoryHasMemory then (Status.OK, ch2, some ev)
            else (Status.NO_MEMORY, ch2, none)
        | none => (Status.UNKNOWN_ERROR, ch2, none)
      else (Status.UNKNOWN_ERROR, ch2, none)
  | (s, ch2, _) => (s, ch2, none)

/-- The whole motion message whose body is `m` (motion tag, zero padding),
as `publishMotionEvent` would frame it. -/
def motionMessageOf (m : MotionBody) : InputMessage :=
  { header := { type := TYPE_MOTION, padding := 0 }, body := Body.motion m }

/-- A concrete motion body with the given pointer count (all other fields
zero); used to evaluate the size formulas on concrete inputs. -/
def sampleMotion (pc : Nat) : MotionBody :=
  { eventTime := 0, deviceId := 0, source := 0, action := 0, flags := 0,
    metaState := 0, buttonState := 0, edgeFlags := 0, downTime := 0,
    xOffset := 0, yOffset := 0, xPrecision := 0, yPrecision := 0,
    pointerCount := pc, pointers := [] }

/-- The key body produced by publishing with fields
`deviceId=1, source=2, action=3, flags=4, keyCode=kc, scanCode=6,
metaState=7, repeatCount=8, downTime=9, eventTime=et`. -/
def sampleKey (kc et : Int) : KeyBody :=
  { eventTime := et, deviceId := 1, source := 2, action := 3, flags := 4,
    keyCode := kc, scanCode := 6, metaState := 7, repeatCount := 8,
    downTime := 9 }

/-- The acknowledgment-ordering scenario over a connected pair: the
publisher sends three key events (keyCodes 10, 20, 30) on the forward
direction; the consumer consumes each and acknowledges with
handled = true, false, true on the reverse direction; the publisher then
reads three finished signals.  The result pairs each consume outcome and
each `receiveFinishedSignal` outcome. -/
def ackScenarioRun :
    List (Status × Option InputEvent) × List (Status × Option Bool) :=
  let f0 := emptyChannel 8
  let r0 := emptyChannel 8
  let p1 := publishKeyEvent f0 1 2 3 4 10 6 7 8 9 100
  let p2 := publishKeyEvent p1.2 1 2 3 4 20 6 7 8 9 200
  let p3 := publishKeyEvent p2.2 1 2 3 4 30 6 7 8 9 300
  let c1 := consume p3.2 true
  let a1 := sendFinishedSignal r0 true
  let c2 := consume c1.2.1 true
  let a2 := sendFinishedSignal a1.2 false
  let c3 := consume c2.2.1 true
  let a3 := sendFinishedSignal a2.2 true
  let g1 := receiveFinishedSignal a3.2
  let g2 := receiveFinishedSignal g1.2.1
  let g3 := receiveFinishedSignal g2.2.1
  ([(c1.1, c1.2.2), (c2.1, c2.2.2), (c3.1, c3.2.2)],
   [(g1.1, g1.2.2), (g2.1, g2.2.2), (g3.1, g3.2.2)])

/-- An open channel of capacity 1 already holding one frame: the smallest
concrete full channel, used to exercise the `WOULD_BLOCK` outcomes. -/
def fullChannel : ChannelState :=
  { queue := [finishedMessage false], capacity := 1, peerClosed := false }

/-- An open channel of capacity 4 holding one Finished(handled = true)
frame, and the same channel after that frame has been received. -/
def finChannel : ChannelState :=
  { queue := [finishedMessage true], capacity := 4, peerClosed := false }

/-- `finChannel` with its one frame dequeued. -/
def finChannelDrained : ChannelState :=
  { queue := [], capacity := 4, peerClosed := false }

/-- Claim C10: the three wire tags have the concrete values 1, 2, 3, are
pairwise distinct and nonzero, and a message with a zero-initialized
header (type 0) fails `isValid` for every body and every `actualSize`. -/
theorem type_tags_zero_invalid :
    TYPE_KEY = 1 ∧ TYPE_MOTION = 2 ∧ TYPE_FINISHED = 3 ∧
    TYPE_KEY ≠ TYPE_MOTION ∧ TYPE_KEY ≠ TYPE_FINISHED ∧
    TYPE_MOTION ≠ TYPE_FINISHED ∧
    TYPE_KEY ≠ 0 ∧ TYPE_MOTION ≠ 0 ∧ TYPE_FINISHED ≠ 0 ∧
    ∀ (body : Body) (actualSize : Nat),
      InputMessage.isValid
        { header := { type := 0, padding := 0 }, body := body } actualSize
        = false := by
  refine ⟨rfl, rfl, rfl, by decide, by decide, by decide, by decide, by decide,
    by decide, ?_⟩
  intro body actualSize
  simp [InputMessage.isValid, TYPE_KEY, TYPE_MOTION, TYPE_FINISHED]

/-- Claim C3: for an in-range pointer count, a motion body's `size()`
equals the fixed part (`sizeof(Motion)` minus the full pointer array)
plus `pointerCount` times the size of one pointer record, and `isValid`
applied to the motion message's computed size returns true. -/
theorem motion_size_formula (m : MotionBody)
    (h1 : 1 ≤ m.pointerCount) (h2 : m.pointerCount ≤ MAX_POINTERS) :
    m.size = (sizeofMotionBody - sizeofPointer * MAX_POINTERS)
        + m.pointerCount * sizeofPointer ∧
    (motionMessageOf m).isValid (motionMessageOf m).size = true := by
  constructor
  · unfold MotionBody.size sizeofMotionBody sizeofMotionFixed sizeofPointer
      MAX_POINTERS
    omega
  · simp [motionMessageOf, InputMessage.isValid, InputMessage.size,
      TYPE_KEY, TYPE_MOTION, TYPE_FINISHED, h1, h2]

/-- Claim C9: `Motion::size()` is strictly monotone in the pointer count
(below `MAX_POINTERS`), equals `sizeof(Motion)` at `MAX_POINTERS`, and
the total frame size `sizeof(Header) + size()` is bounded by the fixed
message capacity `sizeof(Header) + sizeof(Motion)`. -/
theorem motion_size_monotone_bounded (m m2 : MotionBody)
    (hlt : m.pointerCount < m2.pointerCount)
    (hle : m2.pointerCount ≤ MAX_POINTERS) :
    m.size < m2.size ∧
    (m2.pointerCount = MAX_POINTERS → m2.size = sizeofMotionBody) ∧
    sizeofHeader + m.size ≤ sizeofHeader + sizeofMotionBody ∧
    sizeofHeader + m2.size ≤ sizeofHeader + sizeofMotionBody := by
  unfold MotionBody.size sizeofMotionBody sizeofMotionFixed sizeofPointer
    MAX_POINTERS sizeofHeader at *
  omega

/-- Witness for C9 at pointer counts 1 and `MAX_POINTERS` = 10. -/
theorem motion_size_monotone_bounded_witness :
    (sampleMotion 1).pointerCount < (sampleMotion 10).pointerCount ∧
    (sampleMotion 10).pointerCount ≤ MAX_POINTERS ∧
    ((sampleMotion 1).size < (sampleMotion 10).size ∧
      ((sampleMotion 10).pointerCount = MAX_POINTERS →
        (sampleMotion 10).size = sizeofMotionBody) ∧
      sizeofHeader + (sampleMotion 1).size
          ≤ sizeofHeader + sizeofMotionBody ∧
      sizeofHeader + (sampleMotion 10).size
          ≤ sizeofHeader + sizeofMotionBody) :=
  ⟨by decide, by decide,
    motion_size_monotone_bounded (sampleMotion 1) (sampleMotion 10)
      (by decide) (by decide)⟩

/-- Witness for C3 at pointer count 2. -/
theorem motion_size_formula_witness :
    1 ≤ (sampleMotion 2).pointerCount ∧
    (sampleMotion 2).pointerCount ≤ MAX_POINTERS ∧
    ((sampleMotion 2).size = (sizeofMotionBody - sizeofPointer * MAX_POINTERS)
        + (sampleMotion 2).pointerCount * sizeofPointer ∧
      (motionMessageOf (sampleMotion 2)).isValid
        (motionMessageOf (sampleMotion 2)).size = true) :=
  ⟨by decide, by decide,
    motion_size_formula (sampleMotion 2) (by decide) (by decide)⟩

/-- Claim C2: `isValid(actualSize)` returns true iff the header's tag is
one of the three known tags, and additionally for Motion the message's
`pointerCount` lies in `[1, MAX_POINTERS]` and the size computed from it
equals `actualSize`, while for Key and Finished `actualSize` equals the
fixed frame size — for every message value and every `actualSize`. -/
theorem isValid_iff_spec (msg : InputMessage) (actualSize : Nat) :
    msg.isValid actualSize = true ↔
      (msg.header.type = TYPE_KEY ∧
        actualSize = sizeofHeader + sizeofKeyBody) ∨
      (msg.header.type = TYPE_MOTION ∧ ∃ m, msg.body = Body.motion m ∧
        1 ≤ m.pointerCount ∧ m.pointerCount ≤ MAX_POINTERS ∧
        actualSize = sizeofHeader + m.size) ∨
      (msg.header.type = TYPE_FINISHED ∧
        actualSize = sizeofHeader + sizeofFinishedBody) := by
  obtain ⟨⟨t, pad⟩, body⟩ := msg
  simp only [InputMessage.isValid]
  by_cases h1 : t = TYPE_KEY
  · subst h1
    simp [TYPE_KEY, TYPE_MOTION, TYPE_FINISHED]
  · by_cases h2 : t = TYPE_MOTION
    · subst h2
      cases body with
      | key k => simp [TYPE_KEY, TYPE_MOTION, TYPE_FINISHED]
      | motion m =>
          simp [TYPE_KEY, TYPE_MOTION, TYPE_FINISHED, and_assoc]
      | finished f => simp [TYPE_KEY, TYPE_MOTION, TYPE_FINISHED]
    · by_cases h3 : t = TYPE_FINISHED
      · subst h3
        simp [TYPE_KEY, TYPE_MOTION, TYPE_FINISHED]
      · simp [h1, h2, h3]

/-- Claim C4: for a pointer count outside `[1, MAX_POINTERS]`,
`publishMotionEvent` returns `BAD_VALUE` and performs no channel I/O:
the channel state is returned unchanged. -/
theorem publishMotionEvent_badValue (ch : ChannelState)
    (deviceId source action flags edgeFlags metaState buttonState
      xOffset yOffset xPrecision yPrecision downTime eventTime : Int)
    (pointerCount : Nat) (props coords : List Int)
    (hbad : pointerCount < 1 ∨ MAX_POINTERS < pointerCount) :
    publishMotionEvent ch deviceId source action flags edgeFlags metaState
        buttonState xOffset yOffset xPrecision yPrecision downTime eventTime
        pointerCount props coords
      = (Status.BAD_VALUE, ch) := by
  simp only [publishMotionEvent, if_pos hbad]

/-- Witness for C4 at pointer count 0 on a fresh channel. -/
theorem publishMotionEvent_badValue_witness :
    ((0 : Nat) < 1 ∨ MAX_POINTERS < 0) ∧
    publishMotionEvent (emptyChannel 4) 1 2 3 4 5 6 7 8 9 10 11 12 13 0 [] []
      = (Status.BAD_VALUE, emptyChannel 4) :=
  ⟨Or.inl (by decide),
    publishMotionEvent_badValue (emptyChannel 4) 1 2 3 4 5 6 7 8 9 10 11 12 13
      0 [] [] (Or.inl (by decide))⟩

/-- Claim C8: `sendFinishedSignal` constructs a Finished message carrying
exactly the given handled flag and sends it through the owned channel,
propagating `sendMessage`'s outcomes unchanged: `WOULD_BLOCK` on a full
channel and `DEAD_OBJECT` when the peer has closed. -/
theorem sendFinishedSignal_spec (ch : ChannelState) (handled : Bool) :
    sendFinishedSignal ch handled = sendMessage ch (finishedMessage handled) ∧
    (finishedMessage handled).header.type = TYPE_FINISHED ∧
    (finishedMessage handled).body = Body.finished { handled := handled } ∧
    (ch.peerClosed = true →
      sendFinishedSignal ch handled = (Status.DEAD_OBJECT, ch)) ∧
    (ch.peerClosed = false → ch.capacity ≤ ch.queue.length →
      (sendFinishedSignal ch handled).1 = Status.WOULD_BLOCK) := by
  refine ⟨rfl, rfl, rfl, ?_, ?_⟩
  · intro h
    simp [sendFinishedSignal, sendMessage, h]
  · intro h1 h2
    unfold sendFinishedSignal sendMessage
    rw [if_neg (by simp [h1]), if_neg (by omega)]

/-- Witness for C8 on a full open channel (capacity 1 holding one frame). -/
theorem sendFinishedSignal_spec_witness :
    sendFinishedSignal fullChannel true
        = sendMessage fullChannel (finishedMessage true) ∧
    (finishedMessage true).header.type = TYPE_FINISHED ∧
    (finishedMessage true).body = Body.finished { handled := true } ∧
    (fullChannel.peerClosed = true →
      sendFinishedSignal fullChannel true = (Status.DEAD_OBJECT, fullChannel)) ∧
    (fullChannel.peerClosed = false →
      fullChannel.capacity ≤ fullChannel.queue.length →
      (sendFinishedSignal fullChannel true).1 = Status.WOULD_BLOCK) :=
  sendFinishedSignal_spec fullChannel true

/-- Claim C5: a `sendMessage` that returns `WOULD_BLOCK` has transmitted
nothing (the channel state is unchanged), and retrying the identical send
after the peer dequeues a frame succeeds exactly once, appending the one
complete frame (no duplication, no truncation).  The hypothesis
`queue.length ≤ capacity` is the invariant every reachable channel state
satisfies, since `sendMessage` enqueues only below capacity. -/
theorem sendMessage_wouldBlock_retry (ch : ChannelState) (msg : InputMessage)
    (hinv : ch.queue.length ≤ ch.capacity)
    (hwb : (sendMessage ch msg).1 = Status.WOULD_BLOCK) :
    (sendMessage ch msg).2 = ch ∧
    ((receiveMessage ch).1 = Status.OK →
      sendMessage (receiveMessage ch).2.1 msg
        = (Status.OK, { (receiveMessage ch).2.1 with
            queue := (receiveMessage ch).2.1.queue ++ [msg] })) := by
  obtain ⟨q, cap, pcl⟩ := ch
  cases pcl with
  | true => simp [sendMessage] at hwb
  | false =>
    by_cases hlen : q.length < cap
    · simp [sendMessage, hlen] at hwb
    · refine ⟨by simp [sendMessage, hlen], ?_⟩
      intro hok
      cases q with
      | nil => simp [receiveMessage] at hok
      | cons m rest =>
        have hr : rest.length < cap := by
          simp only [List.length_cons] at hinv
          omega
        simp [receiveMessage, sendMessage, hr]

/-- Witness for C5: a full open channel (capacity 1, one queued frame)
rejects a key frame with `WOULD_BLOCK` leaving the state unchanged, and
after the queued frame is received the identical retry succeeds,
enqueueing exactly that frame. -/
theorem sendMessage_wouldBlock_retry_witness :
    fullChannel.queue.length ≤ fullChannel.capacity ∧
    (sendMessage fullChannel (keyMessage 1 2 3 4 5 6 7 8 9 10)).1
        = Status.WOULD_BLOCK ∧
    (sendMessage fullChannel (keyMessage 1 2 3 4 5 6 7 8 9 10)).2
        = fullChannel ∧
    sendMessage (receiveMessage fullChannel).2.1
        (keyMessage 1 2 3 4 5 6 7 8 9 10)
      = (Status.OK, { (receiveMessage fullChannel).2.1 with
          queue := (receiveMessage fullChannel).2.1.queue
            ++ [keyMessage 1 2 3 4 5 6 7 8 9 10] }) := by
  refine ⟨by decide, by decide, ?_, ?_⟩
  · exact (sendMessage_wouldBlock_retry fullChannel
      (keyMessage 1 2 3 4 5 6 7 8 9 10) (by decide) (by decide)).1
  · exact (sendMessage_wouldBlock_retry fullChannel
      (keyMessage 1 2 3 4 5 6 7 8 9 10) (by decide) (by decide)).2 (by decide)

/-- Claim C7: `receiveFinishedSignal` accepts only a frame that decodes
as a Finished record: on a Finished frame it returns `OK` with that
frame's handled flag; on any other kind it returns a channel-fault
status and no handled value. -/
theorem receiveFinishedSignal_spec (ch ch2 : ChannelState) (msg : InputMessage)
    (hrecv : receiveMessage ch = (Status.OK, ch2, some msg)) :
    (∀ f : FinishedBody, msg.header.type = TYPE_FINISHED →
      msg.body = Body.finished f →
      receiveFinishedSignal ch = (Status.OK, ch2, some f.handled)) ∧
    (msg.header.type ≠ TYPE_FINISHED →
      receiveFinishedSignal ch = (Status.UNKNOWN_ERROR, ch2, none)) := by
  constructor
  · intro f ht hb
    rw [receiveFinishedSignal, hrecv]
    simp [ht, hb]
  · intro hne
    rw [receiveFinishedSignal, hrecv]
    simp [hne]

/-- Witness for C7: a channel holding one Finished(handled = true) frame
yields `OK` and `some true`. -/
theorem receiveFinishedSignal_spec_witness :
    receiveMessage finChannel
      = (Status.OK, finChannelDrained, some (finishedMessage true)) ∧
    receiveFinishedSignal finChannel
      = (Status.OK, finChannelDrained, some true) :=
  ⟨by decide,
    (receiveFinishedSignal_spec finChannel finChannelDrained
      (finishedMessage true) (by decide)).1 { handled := true } rfl rfl⟩

/-- Claim C6: acknowledgment pairing is positional.  In the concrete
scenario the publisher sends three key events (keyCodes 10, 20, 30) in
order; the consumer receives them in that order and acknowledges each
with handled = true, false, true; the publisher's three successive
`receiveFinishedSignal` calls then return true, false, true in order. -/
theorem finished_ordering_scenario :
    ackScenarioRun =
      ([(Status.OK, some (InputEvent.key (sampleKey 10 100))),
        (Status.OK, some (InputEvent.key (sampleKey 20 200))),
        (Status.OK, some (InputEvent.key (sampleKey 30 300)))],
       [(Status.OK, some true), (Status.OK, some false),
        (Status.OK, some true)]) := by
  decide

/-- Claim C1: round-trip.  Publishing a Key or Motion event with in-range
field values over an open channel, then consuming it on the peer side,
yields `OK` and an event whose fields all equal the originals; for Motion
the decoded pointer list is exactly the first `pointerCount` records of
the supplied property/coordinate arrays (the unused capacity of the
fixed-size array is not part of the decoded event). -/
theorem publish_consume_roundTrip (ch : ChannelState)
    (hopen : ch.peerClosed = false) (hq : ch.queue = [])
    (hcap : 1 ≤ ch.capacity)
    (deviceId source action flags keyCode scanCode metaState repeatCount
      downTime eventTime edgeFlags buttonState xOffset yOffset
      xPrecision yPrecision : Int)
    (pointerCount : Nat) (props coords : List Int)
    (hpc1 : 1 ≤ pointerCount) (hpc2 : pointerCount ≤ MAX_POINTERS) :
    ((publishKeyEvent ch deviceId source action flags keyCode scanCode
        metaState repeatCount downTime eventTime).1 = Status.OK ∧
      consume (publishKeyEvent ch deviceId source action flags keyCode
          scanCode metaState repeatCount downTime eventTime).2 true
        = (Status.OK, ch, some (InputEvent.key
            { eventTime := eventTime, deviceId := deviceId,
              source := source, action := action, flags := flags,
              keyCode := keyCode, scanCode := scanCode,
              metaState := metaState, repeatCount := repeatCount,
              downTime := downTime }))) ∧
    ((publishMotionEvent ch deviceId source action flags edgeFlags metaState
        buttonState xOffset yOffset xPrecision yPrecision downTime eventTime
        pointerCount props coords).1 = Status.OK ∧
      consume (publishMotionEvent ch deviceId source action flags edgeFlags
          metaState buttonState xOffset yOffset xPrecision yPrecision
          downTime eventTime pointerCount props coords).2 true
        = (Status.OK, ch, some (InputEvent.motion
            { eventTime := eventTime, deviceId := deviceId,
              source := source, action := action, flags := flags,
              metaState := metaState, buttonState := buttonState,
              edgeFlags := edgeFlags, downTime := downTime,
              xOffset := xOffset, yOffset := yOffset,
              xPrecision := xPrecision, yPrecision := yPrecision,
              pointerCount := pointerCount,
              pointers := ((props.zip coords).map
                  (fun pr => { properties := pr.1, coords := pr.2 })).take
                pointerCount }))) := by
  obtain ⟨q, cap, pcl⟩ := ch
  dsimp only at hopen hq hcap
  subst hopen hq
  have h0 : 0 < cap := hcap
  have hne : pointerCount ≠ 0 := by omega
  have hle : ¬ MAX_POINTERS < pointerCount := Nat.not_lt.mpr hpc2
  refine ⟨⟨?_, ?_⟩, ?_, ?_⟩
  · simp [publishKeyEvent, sendMessage, h0]
  · simp [publishKeyEvent, sendMessage, h0, consume, receiveMessage,
      keyMessage, InputMessage.isValid, InputMessage.size, decodeEvent,
      TYPE_KEY, TYPE_MOTION, TYPE_FINISHED]
  · simp [publishMotionEvent, hne, hle, sendMessage, h0]
  · simp [publishMotionEvent, hne, hle, sendMessage, h0, consume,
      receiveMessage, motionMessage, InputMessage.isValid,
      InputMessage.size, decodeEvent, TYPE_KEY, TYPE_MOTION, TYPE_FINISHED,
      hpc1, hpc2, List.take_take, Nat.min_self]

/-- Witness for C1: a fresh channel of capacity 4, a key event with
fields 1..10, and a two-pointer motion event drawn from three-element
pointer arrays (the third record is beyond `pointerCount` and is
dropped). -/
theorem publish_consume_roundTrip_witness :
    (emptyChannel 4).peerClosed = false ∧
    (emptyChannel 4).queue = [] ∧
    1 ≤ (emptyChannel 4).capacity ∧
    1 ≤ (2 : Nat) ∧ (2 : Nat) ≤ MAX_POINTERS ∧
    (((publishKeyEvent (emptyChannel 4) 1 2 3 4 5 6 7 8 9 10).1
        = Status.OK ∧
      consume (publishKeyEvent (emptyChannel 4) 1 2 3 4 5 6 7 8 9 10).2 true
        = (Status.OK, emptyChannel 4, some (InputEvent.key
            { eventTime := 10, deviceId := 1, source := 2, action := 3,
              flags := 4, keyCode := 5, scanCode := 6, metaState := 7,
              repeatCount := 8, downTime := 9 }))) ∧
    ((publishMotionEvent (emptyChannel 4) 1 2 3 4 11 7 12 13 14 15 16 9 10
        2 [101, 102, 103] [201, 202, 203]).1 = Status.OK ∧
      consume (publishMotionEvent (emptyChannel 4) 1 2 3 4 11 7 12 13 14 15
          16 9 10 2 [101, 102, 103] [201, 202, 203]).2 true
        = (Status.OK, emptyChannel 4, some (InputEvent.motion
            { eventTime := 10, deviceId := 1, source := 2, action := 3,
              flags := 4, metaState := 7, buttonState := 12,
              edgeFlags := 11, downTime := 9, xOffset := 13, yOffset := 14,
              xPrecision := 15, yPrecision := 16, pointerCount := 2,
              pointers := ((([101, 102, 103] : List Int).zip
                  ([201, 202, 203] : List Int)).map
                  (fun pr => { properties := pr.1, coords := pr.2 })).take
                2 })))) :=
  ⟨rfl, rfl, by decide, by decide, by decide,
    publish_consume_roundTrip (emptyChannel 4) rfl rfl (by decide)
      1 2 3 4 5 6 7 8 9 10 11 12 13 14 15 16 2 [101, 102, 103]
      [201, 202, 203] (by decide) (by decide)⟩

end Android
